import Mathlib

/-!
Verification development for the AI query interface (`src/app.py`).

The program is a Flask app that sends a prompt to a generative model,
extracts URLs from the response, fetches each URL, optionally renders HTML
to PDF, and stores the result in an object-storage bucket.  We give a
shallow embedding: strings are `List Char` (`Str`), bytes are `List Nat`
(`Bytes`), and every external collaborator (inference service, HTTP fetch,
HTML-to-PDF renderer, blob upload, bucket creation, md5) is a parameter of
an `Env` record whose fallible operations return `Except`; the Python
`try/except` blocks become `match` on those `Except` values.  Character
classes (`\s`, `\w`, `str.strip`, `str.title`) are modelled at ASCII
granularity, which covers the character sets these claims quantify over.
-/

namespace AIQ

/-- Strings of the Python program, modelled as lists of characters. -/
abbrev Str := List Char

/-- Byte strings (Python `bytes`), modelled as lists of naturals. -/
abbrev Bytes := List Nat

/-- ASCII model of Python's `\s` / `str.strip()` whitespace class. -/
def isSpacePy (c : Char) : Bool :=
  c == ' ' || c == '\t' || c == '\n' || c == '\r' || c == '\x0b' || c == '\x0c'

/-- Characters excluded by the URL regex character class
`[^\s<>\[\]()"\']` in `extract_urls` (`app.py` line 38). -/
def urlStopChar (c : Char) : Bool :=
  isSpacePy c || c == '<' || c == '>' || c == '[' || c == ']' ||
    c == '(' || c == ')' || c == '"' || c == Char.ofNat 39

/-- The trailing-punctuation set of `url.rstrip('.,;:!?)')` (`app.py` line 43). -/
def isUrlPunct (c : Char) : Bool :=
  c == '.' || c == ',' || c == ';' || c == ':' || c == '!' || c == '?' || c == ')'

/-- ASCII model of Python's `\w` regex class: alphanumeric or underscore. -/
def isWordChar (c : Char) : Bool :=
  c.isAlphanum || c == '_'

/-- The literal `http://`. -/
def httpScheme : Str := "http://".toList

/-- The literal `https://`. -/
def httpsScheme : Str := "https://".toList

/-- Python substring containment (`needle in hay`), by scanning positions. -/
def strContains : Str → Str → Bool
  | [], needle => needle.isPrefixOf []
  | h :: t, needle => needle.isPrefixOf (h :: t) || strContains t needle

/-- Python `str.strip()` with no arguments: remove leading and trailing
whitespace. -/
def pyStrip (s : Str) : Str :=
  (s.dropWhile isSpacePy).rdropWhile isSpacePy

/-- Python `s.rstrip('.,;:!?)')` from `extract_urls`. -/
def rstripPunct (s : Str) : Str :=
  s.rdropWhile isUrlPunct

/-- One attempt of the regex `https?://[^\s<>\[\]()"\']+` at the head of
`cs`: `https?` tries the literal with `s` first and falls back to `http`
(the fallback can only succeed when the `https` literal failed, because the
character after `http` cannot be both `s` and `:`), then `://` and a
greedy, non-empty run of non-excluded characters.  On success, returns the
matched string and the remainder of the input after the match. -/
def matchUrlAt (cs : Str) : Option (Str × Str) :=
  if httpsScheme.isPrefixOf cs then
    let rest := cs.drop httpsScheme.length
    let tail := rest.takeWhile (fun c => !urlStopChar c)
    if tail.isEmpty then none
    else some (httpsScheme ++ tail, rest.drop tail.length)
  else if httpScheme.isPrefixOf cs then
    let rest := cs.drop httpScheme.length
    let tail := rest.takeWhile (fun c => !urlStopChar c)
    if tail.isEmpty then none
    else some (httpScheme ++ tail, rest.drop tail.length)
  else none

/-- Scanning loop of `re.findall`: try a match at every position, emit
non-overlapping matches left to right.  Fuelled recursion; every step
either consumes one character (no match) or the whole match (at least
eight characters), so fuel equal to the input length is exact —
`findAllAux_fuel_sufficient` below proves the fuel is irrelevant beyond
the input length. -/
def findAllAux : Nat → Str → List Str
  | 0, _ => []
  | _ + 1, [] => []
  | n + 1, c :: cs =>
    match matchUrlAt (c :: cs) with
    | some (m, rest) => m :: findAllAux n rest
    | none => findAllAux n cs

/-- `re.findall(r'https?://[^\s<>\[\]()"\']+', text)` (`app.py` lines 38-39). -/
def re_findall_urls (text : Str) : List Str :=
  findAllAux text.length text

/-- `extract_urls` (`app.py` lines 36-46): find regex matches, strip
trailing punctuation, keep non-empty results longer than ten characters,
and deduplicate.  Python's final `list(set(...))` has unspecified order;
`dedup` (keep first occurrences) models it up to ordering. -/
def extract_urls (text : Str) : List Str :=
  (((re_findall_urls text).map rstripPunct).filter
    (fun u => !u.isEmpty && decide (10 < u.length))).dedup

/-! ### URL parsing and filename derivation -/

/-- Result of Python `urllib.parse.urlparse`, restricted to the components
the program reads. -/
structure UrlParts where
  scheme : Str
  netloc : Str
  path : Str
deriving Repr, DecidableEq

/-- Splits what follows `scheme://`: the netloc runs to the first of
`/ ? #`, the path to the first of `? #`. -/
def splitAfterScheme (schemeName rest : Str) : UrlParts :=
  let netloc := rest.takeWhile (fun c => !(c == '/' || c == '?' || c == '#'))
  let tail := rest.drop netloc.length
  let path := tail.takeWhile (fun c => !(c == '?' || c == '#'))
  ⟨schemeName, netloc, path⟩

/-- The literal `https`. -/
def httpsName : Str := "https".toList

/-- The literal `http`. -/
def httpName : Str := "http".toList

/-- Model of `urllib.parse.urlparse` for the URL shapes this program
feeds it (lower-case `http`/`https` absolute URLs, as produced by
`extract_urls`; anything else is treated as a bare path, scheme and netloc
empty). -/
def pyUrlparse (url : Str) : UrlParts :=
  if httpsScheme.isPrefixOf url then
    splitAfterScheme httpsName (url.drop httpsScheme.length)
  else if httpScheme.isPrefixOf url then
    splitAfterScheme httpName (url.drop httpScheme.length)
  else
    ⟨[], [], url.takeWhile (fun c => !(c == '?' || c == '#'))⟩

/-- Python `s.strip('/')`. -/
def stripSlashes (s : Str) : Str :=
  (s.dropWhile (fun c => c == '/')).rdropWhile (fun c => c == '/')

/-- Python `s.split(sep)[-1]`: the segment after the last separator (the
whole string when the separator is absent, empty when it is final). -/
def lastSeg (sep : Char) (s : Str) : Str :=
  s.foldl (fun acc c => if c = sep then [] else acc ++ [c]) []

/-- Python `re.sub(r'[^\w\-.]', '_', s)`: replace every character that is
not a word character, hyphen or dot with an underscore. -/
def sanitizeFile (s : Str) : Str :=
  s.map (fun c => if isWordChar c || c == '-' || c == '.' then c else '_')

/-- Python `s.rsplit('.', 1)[0]`: everything before the last dot
(callers guard on the dot being present). -/
def cutAtLastDot (s : Str) : Str :=
  ((s.reverse.dropWhile (fun c => !(c == '.'))).drop 1).reverse

/-- ASCII model of Python `str.title()`: a letter is upper-cased when the
previous character is not a letter, lower-cased otherwise. -/
def titleCaseAux : Bool → Str → Str
  | _, [] => []
  | prevAlpha, c :: cs =>
    if c.isAlpha then
      (if prevAlpha then c.toLower else c.toUpper) :: titleCaseAux true cs
    else
      c :: titleCaseAux false cs

/-- Python `str.title()` starts outside a letter run. -/
def titleCase (s : Str) : Str := titleCaseAux false s

/-- The `base_filename` derivation of `download_and_store` (`app.py`
lines 86-96): sanitize the last segment of the slash-stripped URL path,
or use the netloc with dots replaced by underscores when the path is
empty; then strip an existing extension at the last dot. -/
def derive_base_filename (url : Str) : Str :=
  let parsed := pyUrlparse url
  let path := stripSlashes parsed.path
  let base0 :=
    if path.isEmpty then parsed.netloc.map (fun c => if c = '.' then '_' else c)
    else sanitizeFile (lastSeg '/' path)
  if '.' ∈ base0 then cutAtLastDot base0 else base0

/-- The `title` field (`app.py` line 105):
`base_filename.replace('_', ' ').title()`. -/
def humanTitle (base : Str) : Str :=
  titleCase (base.map (fun c => if c = '_' then ' ' else c))

/-- `response.headers.get('Content-Type', '').split(';')[0].strip()`
(`app.py` line 83). -/
def clean_content_type (raw : Str) : Str :=
  pyStrip (raw.takeWhile (fun c => !(c == ';')))

/-! ### Data model: fetch responses, document records, the object store -/

/-- The parts of a `requests` response the program reads: the raw
`Content-Type` header (empty when absent), the body bytes
(`response.content`) and the decoded body text (`response.text`). -/
structure FetchResponse where
  contentType : Str
  content : Bytes
  text : Str
deriving Repr, DecidableEq

/-- The per-URL result dictionary of `download_and_store`: keys that a
given branch does not set are `none`. -/
structure DocRecord where
  url : Str
  title : Option Str := none
  status : Str
  pdf_path : Option Str := none
  gcs_uri : Option Str := none
  size_bytes : Option Nat := none
  filename : Option Str := none
  note : Option Str := none
  error : Option Str := none
deriving Repr, DecidableEq

/-- The status literal `success`. -/
def successStatus : Str := "success".toList

/-- The status literal `error`. -/
def errorStatus : Str := "error".toList

/-- The error record of the two `except` arms of `download_and_store`
(`app.py` lines 156-167): only `url`, `status` and `error` are set. -/
def errRecord (url e : Str) : DocRecord :=
  { url := url, status := errorStatus, error := some e }

/-- The state of the object-storage collaborator: the set of existing
buckets and the stored blobs, newest first, each a
(path, bytes, content-type) triple inside the single configured bucket. -/
structure Store where
  buckets : List Str
  blobs : List (Str × Bytes × Str)
deriving Repr, DecidableEq

/-- Push one blob onto the store (a successful
`blob.upload_from_string`). -/
def pushBlob (s : Store) (path : Str) (content : Bytes) (ctype : Str) : Store :=
  { s with blobs := (path, content, ctype) :: s.blobs }

/-- Read a blob back: the newest write at the path wins. -/
def lookupBlob (s : Store) (path : Str) : Option (Bytes × Str) :=
  (s.blobs.find? (fun b => b.1 == path)).map (fun b => b.2)

/-- The external collaborators and environment-driven configuration.
`infer` is `model.generate_content(...).text`; `fetch` is `requests.get`
plus `raise_for_status` (the `Except.error` payload is the Python
`str(e)` of the raised exception); `render` is
`HTML(string=..., base_url=...).write_pdf()`; `upload` is
`blob.upload_from_string`; `createBucket` is
`storage_client.create_bucket`; `md5hex` is
`hashlib.md5(url.encode()).hexdigest()`. -/
structure Env where
  infer : Str → Except Str Str
  fetch : Str → Except Str FetchResponse
  render : Str → Str → Except Str Bytes
  upload : Store → Str → Bytes → Str → Except Str Store
  createBucket : Store → Str → Except Str Store
  md5hex : Str → Str
  bucketName : Str
  promptSuffix : Str

/-- The upload behaviour of a well-behaved object store: record exactly
the given bytes and content type at the given path. -/
def honestUpload : Store → Str → Bytes → Str → Except Str Store :=
  fun s path content ctype => .ok (pushBlob s path content ctype)

/-! ### convert_to_pdf and download_and_store -/

/-- The literal `<base`. -/
def baseTagLit : Str := "<base".toList

/-- The literal `<head>`. -/
def headTagLit : Str := "<head>".toList

/-- Opening of the injected base tag: `<base href="`. -/
def baseHrefOpen : Str := "<base href=\"".toList

/-- Closing of the injected base tag: `">`. -/
def baseHrefClose : Str := "\">".toList

/-- The literal `://`. -/
def schemeSep : Str := "://".toList

/-- ASCII model of Python `str.lower()`. -/
def toLowerStr (s : Str) : Str := s.map Char.toLower

/-- Python `s.replace(old, new, 1)` for a non-empty `old`: replace the
first occurrence only. -/
def replaceFirst : Str → Str → Str → Str
  | [], _, _ => []
  | c :: cs, old, new =>
    if old.isPrefixOf (c :: cs) then new ++ (c :: cs).drop old.length
    else c :: replaceFirst cs old new

/-- `convert_to_pdf` (`app.py` lines 49-70): build `scheme://netloc`,
inject a base tag after the first `<head>` unless the lower-cased content
already contains `<base`, then call the renderer; any renderer failure is
caught and becomes `none`. -/
def convert_to_pdf (render : Str → Str → Except Str Bytes)
    (html_content url : Str) : Option Bytes :=
  let parsed := pyUrlparse url
  let base_url := parsed.scheme ++ schemeSep ++ parsed.netloc
  let html1 :=
    if strContains (toLowerStr html_content) baseTagLit then html_content
    else replaceFirst html_content headTagLit
      (headTagLit ++ baseHrefOpen ++ base_url ++ baseHrefClose)
  match render html1 base_url with
  | .ok b => some b
  | .error _ => none

/-- The literal `application/pdf`. -/
def appPdf : Str := "application/pdf".toList

/-- The literal `text/html`. -/
def textHtmlLit : Str := "text/html".toList

/-- The literal `html`. -/
def htmlLit : Str := "html".toList

/-- The literal `text`. -/
def textLit : Str := "text".toList

/-- The literal `bin`. -/
def binLit : Str := "bin".toList

/-- The literal `.pdf`. -/
def dotPdf : Str := ".pdf".toList

/-- The literal `.html`. -/
def dotHtml : Str := ".html".toList

/-- The literal `.`. -/
def dotLit : Str := ['.']

/-- The literal `/`. -/
def slashLit : Str := ['/']

/-- The literal `_`. -/
def uscoreLit : Str := ['_']

/-- The literal `gs://`. -/
def gsLit : Str := "gs://".toList

/-- The fallback note `PDF conversion failed, stored as HTML`. -/
def convNote : Str := "PDF conversion failed, stored as HTML".toList

/-- A blob path `query_id/url_hash_base_filename` followed by the given
extension (the f-strings of `app.py` lines 111, 125, 134, 146). -/
def blobPath (query_id url_hash base_filename ext : Str) : Str :=
  query_id ++ slashLit ++ url_hash ++ uscoreLit ++ base_filename ++ ext

/-- The success record common to the four upload branches of
`download_and_store`: path, `gs://bucket/path` URI, payload size,
filename and optional fallback note. -/
def successRecord (url title blob_path bucket_name : Str) (size : Nat)
    (fname : Str) (note : Option Str) : DocRecord :=
  { url := url, title := some title, status := successStatus,
    pdf_path := some blob_path,
    gcs_uri := some (gsLit ++ bucket_name ++ slashLit ++ blob_path),
    size_bytes := some size, filename := some fname, note := note }

/-- Upload the payload and build the branch's record; an upload failure is
caught by the surrounding `except` and becomes an error record
(`app.py` lines 110-152, 162-167). -/
def finishUpload (env : Env) (s : Store) (url title blob_path bucket_name : Str)
    (payload : Bytes) (blob_ctype fname : Str) (note : Option Str) :
    DocRecord × Store :=
  match env.upload s blob_path payload blob_ctype with
  | .error e => (errRecord url e, s)
  | .ok s' =>
    (successRecord url title blob_path bucket_name payload.length fname note, s')

/-- `download_and_store` (`app.py` lines 73-167): fetch the URL (a fetch
failure, including a non-2xx raised by `raise_for_status`, yields an error
record), clean the content type, derive the base filename and the
8-character URL hash, then branch: exact `application/pdf` stores the raw
bytes as `.pdf`; a content type containing `html` or `text` is rendered to
PDF with a raw-HTML fallback carrying a note; anything else stores the raw
bytes under the MIME subtype extension, `bin` when there is no slash.
The render result is guarded by Python truthiness (`if pdf_bytes:`,
line 124), which is falsy both for `None` and for empty bytes, so an
empty render result also takes the HTML fallback. -/
def download_and_store (env : Env) (s : Store) (url bucket_name query_id : Str) :
    DocRecord × Store :=
  match env.fetch url with
  | .error e => (errRecord url e, s)
  | .ok resp =>
    let content_type := clean_content_type resp.contentType
    let base_filename := derive_base_filename url
    let url_hash := (env.md5hex url).take 8
    let title := humanTitle base_filename
    if content_type = appPdf then
      finishUpload env s url title (blobPath query_id url_hash base_filename dotPdf)
        bucket_name resp.content appPdf (base_filename ++ dotPdf) none
    else if strContains content_type htmlLit || strContains content_type textLit then
      match convert_to_pdf env.render resp.text url with
      | some pdf_bytes =>
        if pdf_bytes.isEmpty then
          finishUpload env s url title (blobPath query_id url_hash base_filename dotHtml)
            bucket_name resp.content textHtmlLit (base_filename ++ dotHtml) (some convNote)
        else
          finishUpload env s url title (blobPath query_id url_hash base_filename dotPdf)
            bucket_name pdf_bytes appPdf (base_filename ++ dotPdf) none
      | none =>
        finishUpload env s url title (blobPath query_id url_hash base_filename dotHtml)
          bucket_name resp.content textHtmlLit (base_filename ++ dotHtml) (some convNote)
    else
      let ext := if '/' ∈ content_type then lastSeg '/' content_type else binLit
      finishUpload env s url title
        (blobPath query_id url_hash base_filename (dotLit ++ ext))
        bucket_name resp.content content_type (base_filename ++ dotLit ++ ext) none

/-! ### Request handlers -/

/-- `ensure_bucket_exists` (`app.py` lines 170-179): create the bucket
when absent; any creation failure is swallowed and reported as `false`
(the caller ignores the result). -/
def ensure_bucket_exists (env : Env) (s : Store) (bucket_name : Str) :
    Store × Bool :=
  if bucket_name ∈ s.buckets then (s, true)
  else
    match env.createBucket s bucket_name with
    | .ok s' => (s', true)
    | .error _ => (s, false)

/-- The sequential archiving loop of the query handler (`app.py` lines
219-221): one `download_and_store` per URL, threading the store. -/
def processUrls (env : Env) (bucket_name query_id : Str) :
    Store → List Str → List DocRecord × Store
  | s, [] => ([], s)
  | s, u :: us =>
    let rs := download_and_store env s u bucket_name query_id
    let rest := processUrls env bucket_name query_id rs.2 us
    (rs.1 :: rest.1, rest.2)

/-- The parsed JSON body of a `/query` request: `data.get("prompt", "")`
and `data.get("download_sources", True)` make both keys optional. -/
structure QueryReq where
  prompt : Option Str
  download_sources : Option Bool
deriving Repr, DecidableEq

/-- The successful `/query` response body; `query_id` and `bucket` are
only present when archiving ran. -/
structure QueryOk where
  response : Str
  full_prompt : Str
  documents : List DocRecord
  query_id : Option Str := none
  bucket : Option Str := none
deriving Repr, DecidableEq

/-- An HTTP reply of the query handler: a JSON body, or an error body
with a status code (400 for the prompt check, 500 for the catch-all). -/
inductive HttpReply where
  | ok (body : QueryOk)
  | err (code : Nat) (msg : Str)
deriving Repr, DecidableEq

/-- The fixed 400 message `Please enter a prompt`. -/
def errPromptMsg : Str := "Please enter a prompt".toList

/-- The literal two-newline separator of `full_prompt`. -/
def twoNewlines : Str := "\n\n".toList

/-- The `/query` handler (`app.py` lines 188-229).  `query_id` models the
timestamp-plus-uuid identifier generated at line 216 (external
nondeterminism, passed as a parameter).  Strip the prompt, reject an empty
result with a 400; infer (an inference failure is the catch-all 500);
when `download_sources` is set and extraction finds URLs, ensure the
bucket, archive each URL in order, and attach `query_id` and `bucket` to
the response. -/
def query (env : Env) (s : Store) (query_id : Str) (req : QueryReq) :
    HttpReply × Store :=
  let user_prompt := pyStrip (req.prompt.getD [])
  let download_sources := req.download_sources.getD true
  if user_prompt.isEmpty then (.err 400 errPromptMsg, s)
  else
    let full_prompt := user_prompt ++ twoNewlines ++ env.promptSuffix
    match env.infer full_prompt with
    | .error e => (.err 500 e, s)
    | .ok response_text =>
      if download_sources then
        let urls := extract_urls response_text
        if urls.isEmpty then
          (.ok { response := response_text, full_prompt := full_prompt,
                 documents := [] }, s)
        else
          let s1 := (ensure_bucket_exists env s env.bucketName).1
          let dr := processUrls env env.bucketName query_id s1 urls
          (.ok { response := response_text, full_prompt := full_prompt,
                 documents := dr.1, query_id := some query_id,
                 bucket := some env.bucketName }, dr.2)
      else
        (.ok { response := response_text, full_prompt := full_prompt,
               documents := [] }, s)

/-- A reply of the document-retrieval endpoint: the blob's bytes with a
served content type and the inline-disposition filename, or a 404. -/
inductive DocReply where
  | found (content : Bytes) (contentType : Str) (dispositionFilename : Str)
  | notFound (code : Nat) (msg : Str)
deriving Repr, DecidableEq

/-- The 404 message `Document not found`. -/
def notFoundMsg : Str := "Document not found".toList

/-- The literal `application/octet-stream`. -/
def octetStream : Str := "application/octet-stream".toList

/-- The `/document/<path>` handler (`app.py` lines 232-253): 404 when the
blob does not exist; otherwise serve the stored bytes with
`blob.content_type or 'application/octet-stream'` and an inline filename
equal to the path's last segment. -/
def get_document (s : Store) (blob_path : Str) : DocReply :=
  match lookupBlob s blob_path with
  | none => .notFound 404 notFoundMsg
  | some (content, ctype) =>
    .found content (if ctype.isEmpty then octetStream else ctype)
      (lastSeg '/' blob_path)

/-! ## Helper lemmas about the URL extractor -/

/-- A successful regex match at the head of `cs` starts with one of the two
scheme literals and consumes at least one character. -/
theorem matchUrlAt_some {cs m rest : Str} (h : matchUrlAt cs = some (m, rest)) :
    (httpsScheme <+: m ∨ httpScheme <+: m) ∧ rest.length < cs.length := by
  unfold matchUrlAt at h
  by_cases h1 : httpsScheme.isPrefixOf cs
  · rw [if_pos h1] at h
    dsimp only at h
    by_cases he : ((cs.drop httpsScheme.length).takeWhile (fun c => !urlStopChar c)).isEmpty
    · rw [if_pos he] at h; exact absurd h (by simp)
    · rw [if_neg he] at h
      rw [Option.some.injEq, Prod.mk.injEq] at h
      obtain ⟨hm, hrest⟩ := h
      refine ⟨Or.inl (hm ▸ List.prefix_append _ _), ?_⟩
      have hple := List.IsPrefix.length_le (List.isPrefixOf_iff_prefix.mp h1)
      have hl8 : httpsScheme.length = 8 := rfl
      subst hrest
      simp only [List.length_drop]
      omega
  · rw [if_neg h1] at h
    by_cases h2 : httpScheme.isPrefixOf cs
    · rw [if_pos h2] at h
      dsimp only at h
      by_cases he : ((cs.drop httpScheme.length).takeWhile (fun c => !urlStopChar c)).isEmpty
      · rw [if_pos he] at h; exact absurd h (by simp)
      · rw [if_neg he] at h
        rw [Option.some.injEq, Prod.mk.injEq] at h
        obtain ⟨hm, hrest⟩ := h
        refine ⟨Or.inr (hm ▸ List.prefix_append _ _), ?_⟩
        have hple := List.IsPrefix.length_le (List.isPrefixOf_iff_prefix.mp h2)
        have hl7 : httpScheme.length = 7 := rfl
        subst hrest
        simp only [List.length_drop]
        omega
    · rw [if_neg h2] at h; exact absurd h (by simp)

/-- Every string produced by the regex scan starts with one of the two
scheme literals. -/
theorem mem_findAllAux {n : Nat} {cs m : Str} (h : m ∈ findAllAux n cs) :
    httpsScheme <+: m ∨ httpScheme <+: m := by
  induction n generalizing cs with
  | zero => simp [findAllAux] at h
  | succ n ih =>
    match cs with
    | [] => simp [findAllAux] at h
    | c :: cs' =>
      rw [findAllAux] at h
      rcases hm : matchUrlAt (c :: cs') with _ | ⟨m', rest⟩
      · rw [hm] at h
        exact ih h
      · rw [hm] at h
        rcases List.mem_cons.mp h with rfl | h2
        · exact (matchUrlAt_some hm).1
        · exact ih h2

/-- The fuel of `findAllAux` is irrelevant once it reaches the input
length: every step consumes at least one character, so `re_findall_urls`
computes the true fixpoint of the scanning recursion. -/
theorem findAllAux_fuel_sufficient {n m : Nat} {cs : Str}
    (hn : cs.length ≤ n) (hm : cs.length ≤ m) :
    findAllAux n cs = findAllAux m cs := by
  induction n generalizing m cs with
  | zero =>
    have hcs : cs = [] := List.length_eq_zero.mp (Nat.le_zero.mp hn)
    subst hcs
    cases m <;> simp [findAllAux]
  | succ n ih =>
    match cs, m with
    | [], m => cases m <;> simp [findAllAux]
    | c :: cs', 0 => simp at hm
    | c :: cs', m' + 1 =>
      rw [findAllAux, findAllAux]
      rcases h : matchUrlAt (c :: cs') with _ | ⟨u, rest⟩
      · have hn' : cs'.length ≤ n := by simp at hn; omega
        have hm' : cs'.length ≤ m' := by simp at hm; omega
        exact ih hn' hm'
      · have hlt := (matchUrlAt_some h).2
        have hn' : rest.length ≤ n := by simp at hn hlt; omega
        have hm' : rest.length ≤ m' := by simp at hm hlt; omega
        exact congrArg (List.cons u) (ih hn' hm')

/-! ## C1: shape of the extractor's output -/

/-- C1: for every input text, every string returned by `extract_urls`
begins with `http://` or `https://`, has length greater than 10, ends with
no character from the set `.,;:!?)`, and the returned list contains no
duplicates. -/
theorem extract_urls_wellformed (text : Str) :
    (extract_urls text).Nodup ∧
    ∀ u ∈ extract_urls text,
      (httpScheme <+: u ∨ httpsScheme <+: u) ∧
      10 < u.length ∧
      ∀ c, u.getLast? = some c → isUrlPunct c = false := by
  refine ⟨List.nodup_dedup _, ?_⟩
  intro u hu
  obtain ⟨hmem, hpred⟩ := List.mem_filter.mp (List.mem_dedup.mp hu)
  obtain ⟨m, hm, rfl⟩ := List.mem_map.mp hmem
  have hlen : 10 < (rstripPunct m).length :=
    of_decide_eq_true (Bool.and_elim_right hpred)
  have hpre : rstripPunct m <+: m := List.rdropWhile_prefix _ _
  have hscheme : httpsScheme <+: m ∨ httpScheme <+: m := mem_findAllAux hm
  refine ⟨?_, hlen, ?_⟩
  · rcases hscheme with hs | hs
    · exact Or.inr (List.prefix_of_prefix_length_le hs hpre (by
        have h8 : httpsScheme.length = 8 := rfl
        omega))
    · exact Or.inl (List.prefix_of_prefix_length_le hs hpre (by
        have h7 : httpScheme.length = 7 := rfl
        omega))
  · intro c hc
    have hne : rstripPunct m ≠ [] := by
      intro h0
      rw [h0] at hlen
      exact absurd hlen (by decide)
    have hlast := List.rdropWhile_last_not isUrlPunct m hne
    rw [List.getLast?_eq_getLast _ hne] at hc
    cases hc
    exact Bool.not_eq_true _ ▸ hlast

/-- Concrete instance of `extract_urls_wellformed` on the spec's own
example text. -/
def w1Text : Str := "See https://example.com/report.pdf.".toList

/-- The URL the spec expects from `w1Text`. -/
def w1Url : Str := "https://example.com/report.pdf".toList

/-- Witness for C1 at a concrete input. -/
theorem extract_urls_wellformed_witness :
    w1Url ∈ extract_urls w1Text ∧
    ((httpScheme <+: w1Url ∨ httpsScheme <+: w1Url) ∧ 10 < w1Url.length ∧
      ∀ c, w1Url.getLast? = some c → isUrlPunct c = false) :=
  ⟨by decide, (extract_urls_wellformed w1Text).2 w1Url (by decide)⟩

/-! ## C8: the length filter -/

/-- Input for the C8 counterexample: a cleaned regex match of length
exactly 10. -/
def c8Text : Str := "http://abc".toList

/-- C8 counterexample: the claim says every cleaned match of length at
least 10 is retained, but the code keeps only lengths strictly greater
than 10 (`len(url) > 10`): `http://abc` is a cleaned match of length
exactly 10, and the extractor discards it. -/
theorem length_filter_cx :
    re_findall_urls c8Text = [c8Text] ∧
    rstripPunct c8Text = c8Text ∧
    (rstripPunct c8Text).length = 10 ∧
    extract_urls c8Text = [] := by decide

/-- C8 amended: only matches of cleaned length at most 10 are discarded;
every cleaned match of length strictly greater than 10 is retained. -/
theorem length_filter_amended (text m : Str) (hm : m ∈ re_findall_urls text)
    (hl : 10 < (rstripPunct m).length) :
    rstripPunct m ∈ extract_urls text := by
  unfold extract_urls
  refine List.mem_dedup.mpr (List.mem_filter.mpr ⟨List.mem_map_of_mem _ hm, ?_⟩)
  have hne : (rstripPunct m).isEmpty = false := by
    rcases h0 : rstripPunct m with _ | _
    · rw [h0] at hl
      exact absurd hl (by decide)
    · rfl
  simp [hne, hl]

/-- Input for the C8 amended witness: a cleaned match of length 11. -/
def c8LongText : Str := "http://abcd".toList

/-- Witness for the amended C8 at a concrete input. -/
theorem length_filter_amended_witness :
    rstripPunct c8LongText ∈ extract_urls c8LongText :=
  length_filter_amended c8LongText c8LongText (by decide) (by decide)

/-! ## Helper lemmas about the archiver -/

/-- A fetch failure short-circuits `download_and_store` into an error
record, leaving the store untouched, whatever the store was. -/
theorem download_and_store_fetch_error {env : Env} {url msg : Str}
    (s : Store) (bucket_name query_id : Str)
    (hf : env.fetch url = .error msg) :
    download_and_store env s url bucket_name query_id = (errRecord url msg, s) := by
  unfold download_and_store
  rw [hf]

/-- `finishUpload` yields either an error record with an unchanged store,
or the branch's success record together with the store the upload oracle
returned. -/
theorem finishUpload_shape (env : Env) (s : Store)
    (url title blob_path bucket_name : Str) (payload : Bytes)
    (blob_ctype fname : Str) (note : Option Str) :
    (∃ e, finishUpload env s url title blob_path bucket_name payload blob_ctype
        fname note = (errRecord url e, s)) ∨
    (∃ s', env.upload s blob_path payload blob_ctype = .ok s' ∧
      finishUpload env s url title blob_path bucket_name payload blob_ctype
          fname note =
        (successRecord url title blob_path bucket_name payload.length fname note,
         s')) := by
  unfold finishUpload
  rcases h : env.upload s blob_path payload blob_ctype with e | s'
  · exact Or.inl ⟨e, rfl⟩
  · exact Or.inr ⟨s', rfl, rfl⟩

/-- Every leaf of `download_and_store` is either an error record with the
input store, or a success record produced by a successful upload. -/
theorem download_and_store_shape (env : Env) (s : Store)
    (url bucket_name query_id : Str) :
    (∃ e, download_and_store env s url bucket_name query_id = (errRecord url e, s)) ∨
    (∃ title blob_path payload blob_ctype fname note s',
      env.upload s blob_path payload blob_ctype = .ok s' ∧
      download_and_store env s url bucket_name query_id =
        (successRecord url title blob_path bucket_name payload.length fname note,
         s')) := by
  unfold download_and_store
  rcases hf : env.fetch url with e | resp
  · exact Or.inl ⟨e, rfl⟩
  · dsimp only
    split_ifs with h1 h2 h3
    · rcases finishUpload_shape env s url (humanTitle (derive_base_filename url))
        (blobPath query_id ((env.md5hex url).take 8) (derive_base_filename url) dotPdf)
        bucket_name resp.content appPdf (derive_base_filename url ++ dotPdf) none with
        ⟨e, he⟩ | ⟨s', hok, he⟩
      · exact Or.inl ⟨e, he⟩
      · exact Or.inr ⟨_, _, _, _, _, _, s', hok, he⟩
    · rcases hc : convert_to_pdf env.render resp.text url with _ | pdf_bytes
      · rcases finishUpload_shape env s url (humanTitle (derive_base_filename url))
          (blobPath query_id ((env.md5hex url).take 8) (derive_base_filename url) dotHtml)
          bucket_name resp.content textHtmlLit (derive_base_filename url ++ dotHtml)
          (some convNote) with ⟨e, he⟩ | ⟨s', hok, he⟩
        · exact Or.inl ⟨e, he⟩
        · exact Or.inr ⟨_, _, _, _, _, _, s', hok, he⟩
      · dsimp only
        by_cases hemp : pdf_bytes.isEmpty
        · rw [if_pos hemp]
          rcases finishUpload_shape env s url (humanTitle (derive_base_filename url))
            (blobPath query_id ((env.md5hex url).take 8) (derive_base_filename url) dotHtml)
            bucket_name resp.content textHtmlLit (derive_base_filename url ++ dotHtml)
            (some convNote) with ⟨e, he⟩ | ⟨s', hok, he⟩
          · exact Or.inl ⟨e, he⟩
          · exact Or.inr ⟨_, _, _, _, _, _, s', hok, he⟩
        · rw [if_neg hemp]
          rcases finishUpload_shape env s url (humanTitle (derive_base_filename url))
            (blobPath query_id ((env.md5hex url).take 8) (derive_base_filename url) dotPdf)
            bucket_name pdf_bytes appPdf (derive_base_filename url ++ dotPdf) none with
            ⟨e, he⟩ | ⟨s', hok, he⟩
          · exact Or.inl ⟨e, he⟩
          · exact Or.inr ⟨_, _, _, _, _, _, s', hok, he⟩
    · rcases finishUpload_shape env s url (humanTitle (derive_base_filename url))
        (blobPath query_id ((env.md5hex url).take 8) (derive_base_filename url)
          (dotLit ++ lastSeg '/' (clean_content_type resp.contentType)))
        bucket_name resp.content (clean_content_type resp.contentType)
        (derive_base_filename url ++ dotLit ++
          lastSeg '/' (clean_content_type resp.contentType)) none with
        ⟨e, he⟩ | ⟨s', hok, he⟩
      · exact Or.inl ⟨e, he⟩
      · exact Or.inr ⟨_, _, _, _, _, _, s', hok, he⟩
    · rcases finishUpload_shape env s url (humanTitle (derive_base_filename url))
        (blobPath query_id ((env.md5hex url).take 8) (derive_base_filename url)
          (dotLit ++ binLit))
        bucket_name resp.content (clean_content_type resp.contentType)
        (derive_base_filename url ++ dotLit ++ binLit) none with
        ⟨e, he⟩ | ⟨s', hok, he⟩
      · exact Or.inl ⟨e, he⟩
      · exact Or.inr ⟨_, _, _, _, _, _, s', hok, he⟩

/-- The archiving loop produces exactly one record per URL. -/
theorem processUrls_length (env : Env) (bucket_name query_id : Str) :
    ∀ (urls : List Str) (s : Store),
      (processUrls env bucket_name query_id s urls).1.length = urls.length := by
  intro urls
  induction urls with
  | nil => intro s; rfl
  | cons u us ih =>
    intro s
    simp [processUrls, ih]

/-- Each record of the archiving loop is `download_and_store` applied to
its own URL (at the store threaded up to that point). -/
theorem processUrls_getElem? (env : Env) (bucket_name query_id : Str) :
    ∀ (urls : List Str) (s : Store) (j : Nat) (v : Str), urls[j]? = some v →
      ∃ st, (processUrls env bucket_name query_id s urls).1[j]? =
        some (download_and_store env st v bucket_name query_id).1 := by
  intro urls
  induction urls with
  | nil => intro s j v hv; simp at hv
  | cons u us ih =>
    intro s j v hv
    match j with
    | 0 =>
      rw [List.getElem?_cons_zero, Option.some.injEq] at hv
      subst hv
      exact ⟨s, by simp [processUrls]⟩
    | j + 1 =>
      rw [List.getElem?_cons_succ] at hv
      obtain ⟨st, hst⟩ := ih
        ((download_and_store env s u bucket_name query_id).2) j v hv
      exact ⟨st, by simpa [processUrls] using hst⟩

/-! ## C9: the per-URL archiver is total and its records are well-formed -/

/-- C9: for every URL and every behaviour of the fetch, render and upload
collaborators (each may fail), `download_and_store` always returns a
record carrying the input URL whose status is `success` or `error`, and
every success record also carries `pdf_path`, `gcs_uri`, `size_bytes` and
`filename`. -/
theorem archiver_total_record (env : Env) (s : Store)
    (url bucket_name query_id : Str) (r : DocRecord) (s' : Store)
    (h : download_and_store env s url bucket_name query_id = (r, s')) :
    r.url = url ∧
    (r.status = successStatus ∨ r.status = errorStatus) ∧
    (r.status = successStatus →
      r.pdf_path.isSome = true ∧ r.gcs_uri.isSome = true ∧
      r.size_bytes.isSome = true ∧ r.filename.isSome = true) := by
  rcases download_and_store_shape env s url bucket_name query_id with
    ⟨e, he⟩ | ⟨title, bp, payload, ct, fn, note, st, _, he⟩
  · rw [h] at he
    cases he
    refine ⟨rfl, Or.inr rfl, ?_⟩
    intro hs
    have h2 : errorStatus = successStatus := hs
    exact absurd h2 (by decide)
  · rw [h] at he
    rw [Prod.mk.injEq] at he
    obtain ⟨hr, _⟩ := he
    subst hr
    exact ⟨rfl, Or.inl rfl, fun _ => ⟨rfl, rfl, rfl, rfl⟩⟩

/-- A concrete environment whose collaborators all succeed, used by the
witnesses: fetch yields an HTML page, the renderer yields three bytes,
uploads and bucket creation are honest. -/
def wFetchResp : FetchResponse :=
  { contentType := "text/html; charset=utf-8".toList,
    content := [60, 104, 49, 62],
    text := "<h1>hello</h1>".toList }

/-- Generated text used by witness environments, containing one URL. -/
def wGenText : Str := "See https://example.com/a/page.html now".toList

/-- The configured bucket name used by witness environments. -/
def wBucket : Str := "proj-ai-query-docs".toList

/-- The prompt suffix used by witness environments. -/
def wSuffix : Str := "Use deep research.".toList

/-- Witness environment with every collaborator succeeding. -/
def wEnv : Env :=
  { infer := fun _ => .ok wGenText,
    fetch := fun _ => .ok wFetchResp,
    render := fun _ _ => .ok [37, 80, 68],
    upload := honestUpload,
    createBucket := fun s n => .ok { s with buckets := n :: s.buckets },
    md5hex := fun _ => "0123456789abcdef0123456789abcdef".toList,
    bucketName := wBucket,
    promptSuffix := wSuffix }

/-- The empty store. -/
def emptyStore : Store := ⟨[], []⟩

/-- A sample URL for witnesses. -/
def wUrl : Str := "https://example.com/a/page.html".toList

/-- A sample query id for witnesses. -/
def wQid : Str := "20260101_000000_deadbeef".toList

/-- Witness for C9 at a concrete environment and URL. -/
theorem archiver_total_record_witness :
    (download_and_store wEnv emptyStore wUrl wBucket wQid).1.url = wUrl ∧
    ((download_and_store wEnv emptyStore wUrl wBucket wQid).1.status = successStatus ∨
     (download_and_store wEnv emptyStore wUrl wBucket wQid).1.status = errorStatus) ∧
    ((download_and_store wEnv emptyStore wUrl wBucket wQid).1.status = successStatus →
      (download_and_store wEnv emptyStore wUrl wBucket wQid).1.pdf_path.isSome = true ∧
      (download_and_store wEnv emptyStore wUrl wBucket wQid).1.gcs_uri.isSome = true ∧
      (download_and_store wEnv emptyStore wUrl wBucket wQid).1.size_bytes.isSome = true ∧
      (download_and_store wEnv emptyStore wUrl wBucket wQid).1.filename.isSome = true) :=
  archiver_total_record wEnv emptyStore wUrl wBucket wQid _ _ rfl

/-! ## C2: per-URL failures are isolated -/

/-- C2: in the archiving loop, a fetch that raises a network error for one
URL produces a document record with status `error` and a non-empty `error`
field for that URL (the field holds the exception's message, assumed
non-empty), and every other URL still gets its own record from its own
`download_and_store` run: one failing URL never aborts the loop. -/
theorem archiver_error_isolated (env : Env) (s : Store)
    (bucket_name query_id : Str) (urls : List Str) (i : Nat) (u msg : Str)
    (hu : urls[i]? = some u) (hf : env.fetch u = .error msg) (hmsg : msg ≠ []) :
    (processUrls env bucket_name query_id s urls).1.length = urls.length ∧
    (processUrls env bucket_name query_id s urls).1[i]? = some (errRecord u msg) ∧
    (errRecord u msg).status = errorStatus ∧
    (errRecord u msg).error = some msg ∧ msg ≠ [] ∧
    ∀ (j : Nat) (v : Str), urls[j]? = some v →
      ∃ st, (processUrls env bucket_name query_id s urls).1[j]? =
        some (download_and_store env st v bucket_name query_id).1 := by
  refine ⟨processUrls_length env bucket_name query_id urls s, ?_, rfl, rfl, hmsg,
    fun j v hv => processUrls_getElem? env bucket_name query_id urls s j v hv⟩
  obtain ⟨st, hst⟩ := processUrls_getElem? env bucket_name query_id urls s i u hu
  rw [hst, download_and_store_fetch_error st bucket_name query_id hf]

/-- The error message raised by the failing fetch in the C2 witness. -/
def w2Msg : Str := "Connection refused".toList

/-- Witness environment for C2: the fetch collaborator fails on `wUrl`
with a connection error and succeeds elsewhere. -/
def w2Env : Env :=
  { wEnv with
    fetch := fun url =>
      if url = wUrl then .error w2Msg
      else .ok wFetchResp }

/-- A second URL, fetched successfully in the C2 witness. -/
def w2Other : Str := "https://example.org/other".toList

/-- Witness for C2: two URLs, the first fails, both produce records. -/
theorem archiver_error_isolated_witness :
    (processUrls w2Env wBucket wQid emptyStore [wUrl, w2Other]).1.length = 2 ∧
    (processUrls w2Env wBucket wQid emptyStore [wUrl, w2Other]).1[0]? =
      some (errRecord wUrl w2Msg) ∧
    (errRecord wUrl w2Msg).status = errorStatus ∧
    (errRecord wUrl w2Msg).error = some w2Msg ∧
    w2Msg ≠ [] ∧
    ∀ (j : Nat) (v : Str), ([wUrl, w2Other] : List Str)[j]? = some v →
      ∃ st, (processUrls w2Env wBucket wQid emptyStore [wUrl, w2Other]).1[j]? =
        some (download_and_store w2Env st v wBucket wQid).1 :=
  archiver_error_isolated w2Env emptyStore wBucket wQid [wUrl, w2Other] 0 wUrl
    w2Msg (by decide) (by simp [w2Env]) (by decide)

/-! ## Branch equations of download_and_store -/

/-- With an honest object store, `finishUpload` succeeds and records the
uploaded triple at the head of the store. -/
theorem finishUpload_honest {env : Env} (hup : env.upload = honestUpload)
    (s : Store) (url title blob_path bucket_name : Str) (payload : Bytes)
    (blob_ctype fname : Str) (note : Option Str) :
    finishUpload env s url title blob_path bucket_name payload blob_ctype
        fname note =
      (successRecord url title blob_path bucket_name payload.length fname note,
       pushBlob s blob_path payload blob_ctype) := by
  unfold finishUpload
  rw [hup]
  rfl

/-- The `application/pdf` branch (`app.py` lines 110-117). -/
theorem download_and_store_pdf_branch {env : Env} {url : Str}
    {resp : FetchResponse} (s : Store) (bucket_name query_id : Str)
    (hf : env.fetch url = .ok resp)
    (hct : clean_content_type resp.contentType = appPdf) :
    download_and_store env s url bucket_name query_id =
      finishUpload env s url (humanTitle (derive_base_filename url))
        (blobPath query_id ((env.md5hex url).take 8) (derive_base_filename url) dotPdf)
        bucket_name resp.content appPdf (derive_base_filename url ++ dotPdf) none := by
  unfold download_and_store
  rw [hf]
  dsimp only
  rw [if_pos hct]

/-- The render-success half of the HTML branch (`app.py` lines 120-131):
taken only when `if pdf_bytes:` is truthy, that is, the renderer returned
non-empty bytes. -/
theorem download_and_store_html_render_ok {env : Env} {url : Str}
    {resp : FetchResponse} {pdf_bytes : Bytes} (s : Store)
    (bucket_name query_id : Str) (hf : env.fetch url = .ok resp)
    (hct : clean_content_type resp.contentType ≠ appPdf)
    (hsub : (strContains (clean_content_type resp.contentType) htmlLit ||
        strContains (clean_content_type resp.contentType) textLit) = true)
    (hconv : convert_to_pdf env.render resp.text url = some pdf_bytes)
    (hne : pdf_bytes ≠ []) :
    download_and_store env s url bucket_name query_id =
      finishUpload env s url (humanTitle (derive_base_filename url))
        (blobPath query_id ((env.md5hex url).take 8) (derive_base_filename url) dotPdf)
        bucket_name pdf_bytes appPdf (derive_base_filename url ++ dotPdf) none := by
  have hemp : pdf_bytes.isEmpty = false := by
    rcases pdf_bytes with _ | _
    · exact absurd rfl hne
    · rfl
  unfold download_and_store
  rw [hf]
  dsimp only
  rw [if_neg hct, if_pos hsub, hconv]
  dsimp only
  rw [if_neg (by rw [hemp]; exact Bool.false_ne_true)]

/-- The render-failure half of the HTML branch (`app.py` lines 132-141),
`None` case of the `if pdf_bytes:` truthiness test. -/
theorem download_and_store_html_render_fail {env : Env} {url : Str}
    {resp : FetchResponse} (s : Store) (bucket_name query_id : Str)
    (hf : env.fetch url = .ok resp)
    (hct : clean_content_type resp.contentType ≠ appPdf)
    (hsub : (strContains (clean_content_type resp.contentType) htmlLit ||
        strContains (clean_content_type resp.contentType) textLit) = true)
    (hconv : convert_to_pdf env.render resp.text url = none) :
    download_and_store env s url bucket_name query_id =
      finishUpload env s url (humanTitle (derive_base_filename url))
        (blobPath query_id ((env.md5hex url).take 8) (derive_base_filename url) dotHtml)
        bucket_name resp.content textHtmlLit (derive_base_filename url ++ dotHtml)
        (some convNote) := by
  unfold download_and_store
  rw [hf]
  dsimp only
  rw [if_neg hct, if_pos hsub, hconv]

/-- The render-failure half of the HTML branch (`app.py` lines 132-141),
empty-bytes case: `if pdf_bytes:` is falsy for `b''` too, so an empty
render result also takes the HTML fallback. -/
theorem download_and_store_html_render_empty {env : Env} {url : Str}
    {resp : FetchResponse} (s : Store) (bucket_name query_id : Str)
    (hf : env.fetch url = .ok resp)
    (hct : clean_content_type resp.contentType ≠ appPdf)
    (hsub : (strContains (clean_content_type resp.contentType) htmlLit ||
        strContains (clean_content_type resp.contentType) textLit) = true)
    (hconv : convert_to_pdf env.render resp.text url = some []) :
    download_and_store env s url bucket_name query_id =
      finishUpload env s url (humanTitle (derive_base_filename url))
        (blobPath query_id ((env.md5hex url).take 8) (derive_base_filename url) dotHtml)
        bucket_name resp.content textHtmlLit (derive_base_filename url ++ dotHtml)
        (some convNote) := by
  unfold download_and_store
  rw [hf]
  dsimp only
  rw [if_neg hct, if_pos hsub, hconv]
  rfl

/-- The other-content-type branch (`app.py` lines 143-152). -/
theorem download_and_store_other_branch {env : Env} {url : Str}
    {resp : FetchResponse} (s : Store) (bucket_name query_id : Str)
    (hf : env.fetch url = .ok resp)
    (hct : clean_content_type resp.contentType ≠ appPdf)
    (hsub : (strContains (clean_content_type resp.contentType) htmlLit ||
        strContains (clean_content_type resp.contentType) textLit) = false) :
    download_and_store env s url bucket_name query_id =
      finishUpload env s url (humanTitle (derive_base_filename url))
        (blobPath query_id ((env.md5hex url).take 8) (derive_base_filename url)
          (dotLit ++ (if '/' ∈ clean_content_type resp.contentType then
            lastSeg '/' (clean_content_type resp.contentType) else binLit)))
        bucket_name resp.content (clean_content_type resp.contentType)
        (derive_base_filename url ++ dotLit ++
          (if '/' ∈ clean_content_type resp.contentType then
            lastSeg '/' (clean_content_type resp.contentType) else binLit)) none := by
  unfold download_and_store
  rw [hf]
  dsimp only
  rw [if_neg hct, if_neg (by rw [hsub]; exact Bool.false_ne_true)]

/-! ## C4: the content-type branching -/

/-- The content type of the C4 counterexample. -/
def c4Ct : Str := "application/xhtml+xml".toList

/-- The literal `text/`. -/
def textSlash : Str := "text/".toList

/-- Fetch response of the C4 counterexample: a non-PDF, non-`text/*`
content type whose name contains the substring `html`. -/
def c4Resp : FetchResponse :=
  { contentType := c4Ct, content := [1, 2], text := "<p>x</p>".toList }

/-- Environment of the C4 counterexample. -/
def c4Env : Env := { wEnv with fetch := fun _ => .ok c4Resp }

/-- The filename the code actually records for the C4 counterexample. -/
def c4PdfName : Str := "page.pdf".toList

/-- The filename the claim's `otherwise` branch would record. -/
def c4RawName : Str := "page.xhtml+xml".toList

/-- The blob path the code writes in the C4 counterexample. -/
def c4Path : Str := "20260101_000000_deadbeef/01234567_page.pdf".toList

/-- C4 counterexample: `application/xhtml+xml` is neither
`application/pdf` nor `text/html` nor `text/*`, so the claim's three-way
split sends it to the raw-bytes branch with extension `xhtml+xml`; the
code instead tests substring containment (`'html' in content_type`),
renders it to PDF, stores `application/pdf` bytes and records a `.pdf`
filename. -/
theorem content_type_branching_cx :
    clean_content_type c4Resp.contentType = c4Ct ∧
    c4Ct ≠ appPdf ∧
    c4Ct ≠ textHtmlLit ∧
    textSlash.isPrefixOf c4Ct = false ∧
    (download_and_store c4Env emptyStore wUrl wBucket wQid).1.filename =
      some c4PdfName ∧
    (download_and_store c4Env emptyStore wUrl wBucket wQid).1.filename ≠
      some c4RawName ∧
    (download_and_store c4Env emptyStore wUrl wBucket wQid).2.blobs =
      [(c4Path, [37, 80, 68], appPdf)] := by decide

/-- C4 amended: the render branch is taken exactly when the cleaned
content type contains the substring `html` or `text` anywhere (not only
for `text/html` and `text/*`); with that condition, the three-way split is
as claimed: exact `application/pdf` stores the raw bytes as `.pdf`; the
substring branch stores the rendered PDF when the renderer returns
non-empty bytes, and falls back to raw HTML with a note when the renderer
fails or returns empty output (`if pdf_bytes:` truthiness); everything
else stores raw bytes under the MIME subtype extension, `bin` when there
is no slash.  Stated against an honest upload collaborator so that the
stored blob is observable. -/
theorem content_type_branching_amended (env : Env) (s : Store)
    (url bucket_name query_id : Str) (resp : FetchResponse)
    (hup : env.upload = honestUpload) (hf : env.fetch url = .ok resp) :
    (clean_content_type resp.contentType = appPdf →
      download_and_store env s url bucket_name query_id =
        (successRecord url (humanTitle (derive_base_filename url))
          (blobPath query_id ((env.md5hex url).take 8) (derive_base_filename url) dotPdf)
          bucket_name resp.content.length (derive_base_filename url ++ dotPdf) none,
         pushBlob s
          (blobPath query_id ((env.md5hex url).take 8) (derive_base_filename url) dotPdf)
          resp.content appPdf)) ∧
    (clean_content_type resp.contentType ≠ appPdf →
      (strContains (clean_content_type resp.contentType) htmlLit ||
        strContains (clean_content_type resp.contentType) textLit) = true →
      (∀ pdf_bytes, convert_to_pdf env.render resp.text url = some pdf_bytes →
        pdf_bytes ≠ [] →
        download_and_store env s url bucket_name query_id =
          (successRecord url (humanTitle (derive_base_filename url))
            (blobPath query_id ((env.md5hex url).take 8) (derive_base_filename url) dotPdf)
            bucket_name pdf_bytes.length (derive_base_filename url ++ dotPdf) none,
           pushBlob s
            (blobPath query_id ((env.md5hex url).take 8) (derive_base_filename url) dotPdf)
            pdf_bytes appPdf)) ∧
      ((convert_to_pdf env.render resp.text url = none ∨
        convert_to_pdf env.render resp.text url = some []) →
        download_and_store env s url bucket_name query_id =
          (successRecord url (humanTitle (derive_base_filename url))
            (blobPath query_id ((env.md5hex url).take 8) (derive_base_filename url) dotHtml)
            bucket_name resp.content.length (derive_base_filename url ++ dotHtml)
            (some convNote),
           pushBlob s
            (blobPath query_id ((env.md5hex url).take 8) (derive_base_filename url) dotHtml)
            resp.content textHtmlLit))) ∧
    (clean_content_type resp.contentType ≠ appPdf →
      (strContains (clean_content_type resp.contentType) htmlLit ||
        strContains (clean_content_type resp.contentType) textLit) = false →
      download_and_store env s url bucket_name query_id =
        (successRecord url (humanTitle (derive_base_filename url))
          (blobPath query_id ((env.md5hex url).take 8) (derive_base_filename url)
            (dotLit ++ (if '/' ∈ clean_content_type resp.contentType then
              lastSeg '/' (clean_content_type resp.contentType) else binLit)))
          bucket_name resp.content.length
          (derive_base_filename url ++ dotLit ++
            (if '/' ∈ clean_content_type resp.contentType then
              lastSeg '/' (clean_content_type resp.contentType) else binLit)) none,
         pushBlob s
          (blobPath query_id ((env.md5hex url).take 8) (derive_base_filename url)
            (dotLit ++ (if '/' ∈ clean_content_type resp.contentType then
              lastSeg '/' (clean_content_type resp.contentType) else binLit)))
          resp.content (clean_content_type resp.contentType))) := by
  refine ⟨?_, ?_, ?_⟩
  · intro hct
    rw [download_and_store_pdf_branch s bucket_name query_id hf hct,
      finishUpload_honest hup]
  · intro hct hsub
    constructor
    · intro pdf_bytes hconv hne
      rw [download_and_store_html_render_ok s bucket_name query_id hf hct hsub hconv
        hne, finishUpload_honest hup]
    · intro hconv
      rcases hconv with hconv | hconv
      · rw [download_and_store_html_render_fail s bucket_name query_id hf hct hsub
          hconv, finishUpload_honest hup]
      · rw [download_and_store_html_render_empty s bucket_name query_id hf hct hsub
          hconv, finishUpload_honest hup]
  · intro hct hsub
    rw [download_and_store_other_branch s bucket_name query_id hf hct hsub,
      finishUpload_honest hup]

/-- Fetch response used by the C4-amended witness: an exact
`application/pdf` content type. -/
def w4PdfResp : FetchResponse :=
  { contentType := "application/pdf".toList, content := [37, 80, 68, 70],
    text := [] }

/-- Environment of the C4-amended witness. -/
def w4PdfEnv : Env := { wEnv with fetch := fun _ => .ok w4PdfResp }

/-- Witness for the amended C4, exercising the `application/pdf` branch at
a concrete input. -/
theorem content_type_branching_amended_witness :
    (clean_content_type w4PdfResp.contentType = appPdf) ∧
    download_and_store w4PdfEnv emptyStore wUrl wBucket wQid =
      (successRecord wUrl (humanTitle (derive_base_filename wUrl))
        (blobPath wQid ((w4PdfEnv.md5hex wUrl).take 8) (derive_base_filename wUrl) dotPdf)
        wBucket w4PdfResp.content.length (derive_base_filename wUrl ++ dotPdf) none,
       pushBlob emptyStore
        (blobPath wQid ((w4PdfEnv.md5hex wUrl).take 8) (derive_base_filename wUrl) dotPdf)
        w4PdfResp.content appPdf) :=
  ⟨by decide,
    (content_type_branching_amended w4PdfEnv emptyStore wUrl wBucket wQid w4PdfResp
      rfl rfl).1 (by decide)⟩

/-! ## C6: a successful HTML render is stored as a PDF -/

/-- C6: for every HTML source whose PDF render succeeds (content type in
the render branch, renderer returns non-empty bytes — the truthy case of
`if pdf_bytes:`, and the only successful outcome a PDF renderer can have,
since a PDF document is never the empty byte string — honest store), the
stored blob has content type `application/pdf` at path
`query_id/hash_basename.pdf`, and the recorded filename ends in `.pdf`,
whatever extension the original URL had. -/
theorem html_render_stored_as_pdf (env : Env) (s : Store)
    (url bucket_name query_id : Str) (resp : FetchResponse) (pdf_bytes : Bytes)
    (hup : env.upload = honestUpload) (hf : env.fetch url = .ok resp)
    (hct : clean_content_type resp.contentType ≠ appPdf)
    (hsub : (strContains (clean_content_type resp.contentType) htmlLit ||
        strContains (clean_content_type resp.contentType) textLit) = true)
    (hconv : convert_to_pdf env.render resp.text url = some pdf_bytes)
    (hne : pdf_bytes ≠ []) :
    download_and_store env s url bucket_name query_id =
      (successRecord url (humanTitle (derive_base_filename url))
        (blobPath query_id ((env.md5hex url).take 8) (derive_base_filename url) dotPdf)
        bucket_name pdf_bytes.length (derive_base_filename url ++ dotPdf) none,
       pushBlob s
        (blobPath query_id ((env.md5hex url).take 8) (derive_base_filename url) dotPdf)
        pdf_bytes appPdf) ∧
    dotPdf <:+ (derive_base_filename url ++ dotPdf) ∧
    dotPdf <:+
      blobPath query_id ((env.md5hex url).take 8) (derive_base_filename url) dotPdf := by
  refine ⟨?_, List.suffix_append _ _, ?_⟩
  · rw [download_and_store_html_render_ok s bucket_name query_id hf hct hsub hconv
      hne, finishUpload_honest hup]
  · unfold blobPath
    exact List.suffix_append _ _

/-- Environment of the C6 witness: an HTML page whose URL carries a
non-PDF extension, with a succeeding renderer. -/
def w6Env : Env := c4Env

/-- Witness for C6 at a concrete environment and URL (original extension
`.html`, stored as `.pdf`). -/
theorem html_render_stored_as_pdf_witness :
    download_and_store w6Env emptyStore wUrl wBucket wQid =
      (successRecord wUrl (humanTitle (derive_base_filename wUrl))
        (blobPath wQid ((w6Env.md5hex wUrl).take 8) (derive_base_filename wUrl) dotPdf)
        wBucket ([37, 80, 68] : Bytes).length (derive_base_filename wUrl ++ dotPdf) none,
       pushBlob emptyStore
        (blobPath wQid ((w6Env.md5hex wUrl).take 8) (derive_base_filename wUrl) dotPdf)
        [37, 80, 68] appPdf) ∧
    dotPdf <:+ (derive_base_filename wUrl ++ dotPdf) ∧
    dotPdf <:+
      blobPath wQid ((w6Env.md5hex wUrl).take 8) (derive_base_filename wUrl) dotPdf :=
  html_render_stored_as_pdf w6Env emptyStore wUrl wBucket wQid c4Resp [37, 80, 68]
    rfl rfl (by decide) (by decide) (by decide) (by decide)

/-! ## C7: retrieval round-trip -/

/-- Fetch response of the C7 counterexample: the `Content-Type` header is
absent, so the cleaned content type is empty. -/
def c7Resp : FetchResponse :=
  { contentType := [], content := [9, 9, 7], text := [] }

/-- Environment of the C7 counterexample. -/
def c7Env : Env := { wEnv with fetch := fun _ => .ok c7Resp }

/-- URL of the C7 counterexample. -/
def c7Url : Str := "http://example.com/data".toList

/-- The blob path the archiver writes in the C7 counterexample. -/
def c7Path : Str := "20260101_000000_deadbeef/01234567_data.bin".toList

/-- The inline-disposition filename served for `c7Path`. -/
def c7Fn : Str := "01234567_data.bin".toList

/-- C7 counterexample: a fetch with no `Content-Type` header makes the
archiver store the blob with an empty content type, and retrieval then
serves `application/octet-stream` instead — the content bytes round-trip
unchanged but the content type does not. -/
theorem document_roundtrip_cx :
    (download_and_store c7Env emptyStore c7Url wBucket wQid).1.status =
      successStatus ∧
    (download_and_store c7Env emptyStore c7Url wBucket wQid).1.pdf_path =
      some c7Path ∧
    lookupBlob (download_and_store c7Env emptyStore c7Url wBucket wQid).2 c7Path =
      some ([9, 9, 7], []) ∧
    get_document (download_and_store c7Env emptyStore c7Url wBucket wQid).2 c7Path =
      .found [9, 9, 7] octetStream c7Fn ∧
    octetStream ≠ ([] : Str) := by decide

/-- C7 amended: a path never written returns a not-found result; for a
path recorded by the archiver (honest store), the content bytes round-trip
unchanged, and the content type round-trips unchanged whenever it was
stored non-empty — an empty stored content type is served as
`application/octet-stream`. -/
theorem document_roundtrip_amended :
    (∀ (s : Store) (p : Str), lookupBlob s p = none →
      get_document s p = .notFound 404 notFoundMsg) ∧
    ∀ (env : Env) (s : Store) (url bucket_name query_id p : Str)
      (r : DocRecord) (s' : Store),
      env.upload = honestUpload →
      download_and_store env s url bucket_name query_id = (r, s') →
      r.pdf_path = some p →
      ∃ b c, lookupBlob s' p = some (b, c) ∧
        get_document s' p =
          .found b (if c.isEmpty then octetStream else c) (lastSeg '/' p) ∧
        (c ≠ [] → get_document s' p = .found b c (lastSeg '/' p)) := by
  constructor
  · intro s p h
    unfold get_document
    rw [h]
  · intro env s url bucket_name query_id p r s' hup h hpath
    rcases download_and_store_shape env s url bucket_name query_id with
      ⟨e, he⟩ | ⟨title, bp, payload, ct, fn, note, st, hok, he⟩
    · rw [h] at he
      obtain ⟨hr, -⟩ := Prod.mk.injEq .. ▸ he
      exact absurd (hr ▸ hpath) (by simp [errRecord])
    · rw [h] at he
      rw [Prod.mk.injEq] at he
      obtain ⟨hr, hs'⟩ := he
      rw [hup] at hok
      unfold honestUpload at hok
      rw [Except.ok.injEq] at hok
      have hps : p = bp := by
        rw [hr] at hpath
        simpa [successRecord] using hpath.symm
      subst hps
      refine ⟨payload, ct, ?_, ?_, ?_⟩
      · rw [hs', ← hok]
        simp [lookupBlob, pushBlob]
      · unfold get_document
        rw [hs', ← hok]
        simp [lookupBlob, pushBlob]
      · intro hc
        unfold get_document
        rw [hs', ← hok]
        simp [lookupBlob, pushBlob, hc]

/-- Witness for the amended C7: the not-found half on the empty store, and
the round-trip half on an archiver write with a non-empty content type. -/
theorem document_roundtrip_amended_witness :
    (lookupBlob emptyStore c7Path = none →
      get_document emptyStore c7Path = .notFound 404 notFoundMsg) ∧
    (∃ b c, lookupBlob (download_and_store w4PdfEnv emptyStore wUrl wBucket wQid).2
        (blobPath wQid ((w4PdfEnv.md5hex wUrl).take 8) (derive_base_filename wUrl) dotPdf) =
          some (b, c) ∧
      get_document (download_and_store w4PdfEnv emptyStore wUrl wBucket wQid).2
        (blobPath wQid ((w4PdfEnv.md5hex wUrl).take 8) (derive_base_filename wUrl) dotPdf) =
        .found b (if c.isEmpty then octetStream else c)
          (lastSeg '/' (blobPath wQid ((w4PdfEnv.md5hex wUrl).take 8)
            (derive_base_filename wUrl) dotPdf)) ∧
      (c ≠ [] → get_document (download_and_store w4PdfEnv emptyStore wUrl wBucket wQid).2
        (blobPath wQid ((w4PdfEnv.md5hex wUrl).take 8) (derive_base_filename wUrl) dotPdf) =
        .found b c (lastSeg '/' (blobPath wQid ((w4PdfEnv.md5hex wUrl).take 8)
          (derive_base_filename wUrl) dotPdf)))) :=
  ⟨(document_roundtrip_amended).1 emptyStore c7Path,
   (document_roundtrip_amended).2 w4PdfEnv emptyStore wUrl wBucket wQid _ _ _
    rfl rfl (by decide)⟩

/-! ## C3: empty, whitespace-only or missing prompt -/

/-- C3: for every request whose prompt is empty, whitespace-only or
missing (`getD []` covers the missing key), the query handler returns the
fixed 400 error and leaves the store untouched; the result is the same for
every inference collaborator, so inference is never invoked. -/
theorem query_empty_prompt_rejected (env : Env) (s : Store) (query_id : Str)
    (req : QueryReq) (hp : pyStrip (req.prompt.getD []) = []) :
    query env s query_id req = (.err 400 errPromptMsg, s) ∧
    ∀ f, query { env with infer := f } s query_id req =
      (.err 400 errPromptMsg, s) := by
  constructor
  · unfold query
    rw [hp]
    rfl
  · intro f
    unfold query
    rw [hp]
    rfl

/-- A whitespace-only prompt for the C3 witness. -/
def w3Prompt : Str := "  \t ".toList

/-- The C3 witness request: whitespace-only prompt, no
`download_sources` key. -/
def w3Req : QueryReq := ⟨some w3Prompt, none⟩

/-- Witness for C3 at a concrete request. -/
theorem query_empty_prompt_rejected_witness :
    query wEnv emptyStore wQid w3Req = (.err 400 errPromptMsg, emptyStore) ∧
    ∀ f, query { wEnv with infer := f } emptyStore wQid w3Req =
      (.err 400 errPromptMsg, emptyStore) :=
  query_empty_prompt_rejected wEnv emptyStore wQid w3Req (by decide)

/-! ## C5: download_sources disabled -/

/-- C5: for every request with `download_sources = false` (non-empty
prompt, inference succeeding), the query handler returns a response with
an empty documents list and no `query_id`/`bucket` keys, and the store is
unchanged — the right-hand side mentions no fetch, render, upload or
bucket collaborator, so no extraction or archiving is performed, whatever
URLs the generated text contains. -/
theorem query_no_download_sources (env : Env) (s : Store)
    (query_id p txt : Str) (hp : pyStrip p ≠ [])
    (hi : env.infer (pyStrip p ++ twoNewlines ++ env.promptSuffix) = .ok txt) :
    query env s query_id ⟨some p, some false⟩ =
      (.ok { response := txt,
             full_prompt := pyStrip p ++ twoNewlines ++ env.promptSuffix,
             documents := [] }, s) := by
  have hpe : (pyStrip p).isEmpty = false := by
    rcases h0 : pyStrip p with _ | _
    · exact absurd h0 hp
    · rfl
  unfold query
  simp only [Option.getD_some, hpe, Bool.false_eq_true, if_false, hi]

/-- A non-empty prompt for the C5 and C10 witnesses. -/
def w5Prompt : Str := "Tell me about archives".toList

/-- Witness for C5 at a concrete request whose generated text contains a
URL. -/
theorem query_no_download_sources_witness :
    query wEnv emptyStore wQid ⟨some w5Prompt, some false⟩ =
      (.ok { response := wGenText,
             full_prompt := pyStrip w5Prompt ++ twoNewlines ++ wEnv.promptSuffix,
             documents := [] }, emptyStore) ∧
    extract_urls wGenText ≠ [] :=
  ⟨query_no_download_sources wEnv emptyStore wQid w5Prompt wGenText
    (by decide) rfl, by decide⟩

/-! ## C10: query_id and bucket keys -/

/-- C10: with a non-empty prompt and successful inference, the successful
response carries the `query_id` and `bucket` keys exactly when
`download_sources` (default true) holds and extraction found at least one
URL; when it finds none, the handler returns with an unchanged store (so
no bucket creation or upload is attempted) and a response that omits both
keys, and the result does not depend on the generated query id. -/
theorem query_id_bucket_iff (env : Env) (s : Store) (query_id p txt : Str)
    (ds : Option Bool) (hp : pyStrip p ≠ [])
    (hi : env.infer (pyStrip p ++ twoNewlines ++ env.promptSuffix) = .ok txt) :
    (ds.getD true = true → extract_urls txt ≠ [] →
      query env s query_id ⟨some p, ds⟩ =
        (.ok { response := txt,
               full_prompt := pyStrip p ++ twoNewlines ++ env.promptSuffix,
               documents := (processUrls env env.bucketName query_id
                 (ensure_bucket_exists env s env.bucketName).1 (extract_urls txt)).1,
               query_id := some query_id, bucket := some env.bucketName },
         (processUrls env env.bucketName query_id
           (ensure_bucket_exists env s env.bucketName).1 (extract_urls txt)).2)) ∧
    ((ds.getD true = false ∨ extract_urls txt = []) →
      query env s query_id ⟨some p, ds⟩ =
        (.ok { response := txt,
               full_prompt := pyStrip p ++ twoNewlines ++ env.promptSuffix,
               documents := [] }, s)) ∧
    (∀ body, (query env s query_id ⟨some p, ds⟩).1 = .ok body →
      ((body.query_id.isSome = true ∧ body.bucket.isSome = true) ↔
        (ds.getD true = true ∧ extract_urls txt ≠ []))) := by
  have hpe : (pyStrip p).isEmpty = false := by
    rcases h0 : pyStrip p with _ | _
    · exact absurd h0 hp
    · rfl
  have hyes : ds.getD true = true → extract_urls txt ≠ [] →
      query env s query_id ⟨some p, ds⟩ =
        (.ok { response := txt,
               full_prompt := pyStrip p ++ twoNewlines ++ env.promptSuffix,
               documents := (processUrls env env.bucketName query_id
                 (ensure_bucket_exists env s env.bucketName).1 (extract_urls txt)).1,
               query_id := some query_id, bucket := some env.bucketName },
         (processUrls env env.bucketName query_id
           (ensure_bucket_exists env s env.bucketName).1 (extract_urls txt)).2) := by
    intro hds hu
    have hue : (extract_urls txt).isEmpty = false := by
      rcases h0 : extract_urls txt with _ | _
      · exact absurd h0 hu
      · rfl
    unfold query
    simp only [Option.getD_some, hpe, hi, hds, hue, Bool.false_eq_true, if_false,
      if_true]
  have hno : (ds.getD true = false ∨ extract_urls txt = []) →
      query env s query_id ⟨some p, ds⟩ =
        (.ok { response := txt,
               full_prompt := pyStrip p ++ twoNewlines ++ env.promptSuffix,
               documents := [] }, s) := by
    intro hcase
    rcases hcase with hds | hu
    · unfold query
      simp only [Option.getD_some, hpe, hi, hds, Bool.false_eq_true, if_false]
    · have hue : (extract_urls txt).isEmpty = true := by rw [hu]; rfl
      unfold query
      rcases hds : ds.getD true with _ | _ <;>
        simp only [Option.getD_some, hpe, hi, hds, hue, Bool.false_eq_true,
          if_false, if_true]
  refine ⟨hyes, hno, ?_⟩
  intro body hbody
  rcases hds : ds.getD true with _ | _
  · rw [hno (Or.inl hds)] at hbody
    rw [HttpReply.ok.injEq] at hbody
    subst hbody
    simp
  · rcases hu : extract_urls txt with _ | ⟨u, us⟩
    · rw [hno (Or.inr hu)] at hbody
      rw [HttpReply.ok.injEq] at hbody
      subst hbody
      simp [hu]
    · rw [hyes hds (by rw [hu]; exact List.cons_ne_nil u us)] at hbody
      rw [HttpReply.ok.injEq] at hbody
      subst hbody
      simp [hds, hu]

/-- Generated text without any URL, for the C10 witness. -/
def w10Text : Str := "No sources were found.".toList

/-- Environment of the C10 witness's no-URLs case: inference yields text
containing no URL. -/
def w10Env : Env := { wEnv with infer := fun _ => .ok w10Text }

/-- Witness for C10 at concrete inputs. -/
theorem query_id_bucket_iff_witness :
    (query wEnv emptyStore wQid ⟨some w5Prompt, none⟩ =
      (.ok { response := wGenText,
             full_prompt := pyStrip w5Prompt ++ twoNewlines ++ wEnv.promptSuffix,
             documents := (processUrls wEnv wEnv.bucketName wQid
               (ensure_bucket_exists wEnv emptyStore wEnv.bucketName).1
               (extract_urls wGenText)).1,
             query_id := some wQid, bucket := some wEnv.bucketName },
       (processUrls wEnv wEnv.bucketName wQid
         (ensure_bucket_exists wEnv emptyStore wEnv.bucketName).1
         (extract_urls wGenText)).2)) ∧
    (query w10Env emptyStore wQid ⟨some w5Prompt, none⟩ =
      (.ok { response := w10Text,
             full_prompt := pyStrip w5Prompt ++ twoNewlines ++ w10Env.promptSuffix,
             documents := [] }, emptyStore)) :=
  ⟨(query_id_bucket_iff wEnv emptyStore wQid w5Prompt wGenText none
      (by decide) rfl).1 rfl (by decide),
   ((query_id_bucket_iff w10Env emptyStore wQid w5Prompt w10Text none
      (by decide) rfl).2).1 (Or.inr (by decide))⟩

end AIQ
